import Mathlib

/-!
Verification of the browser-automation session manager and voice pipeline
(`src/auto_browser/web_ui.py`, `src/auto_browser/wake_word_lite.py`).

The Python code is shallowly embedded: the mutable `AutomationServer` object
becomes an explicit `ServerState` record, every fallible external engine call
(`BrowserUI(...)`, `browser.start`, `browser.agent.act`, `browser.stop`) is
resolved by an `EngineOracle`, and each method returns the post-state together
with the list of engine invocations it performed and the exception it raised,
if any.  Printing/logging statements of the source are not modelled (they do
not touch the session state or the engine).
-/

namespace AutoBrowser

/-- A raised Python exception, as far as the session manager can observe it:
whether it is a `RuntimeError` (the class the HTTP adapter catches
specially) and its message. -/
structure PyErr where
  isRuntimeError : Bool
  msg : String
deriving DecidableEq, Repr

/-- One invocation of the external (non-thread-safe) engine:
`constructCall` is `BrowserUI(api_key=..., headless=...)`,
`startCall id` is `self.browser.start(starting_page=...)`,
`actCall id prompt` is `self.browser.agent.act(prompt)`,
`stopCall id` is `self.browser.stop()`.  `id` is the numeric handle of the
engine instance being invoked; handles are allocated in construction order. -/
inductive EngineEvent where
  | constructCall
  | startCall (id : Nat)
  | actCall (id : Nat) (prompt : String)
  | stopCall (id : Nat)
deriving DecidableEq, Repr

/-- Outcomes of the opaque external engine calls.  The engine is outside the
verified core (spec §6), so each call is resolved by this oracle: `.ok ()`
means the Python call returned, `.error e` means it raised `e`. -/
structure EngineOracle where
  constructResult : Except PyErr Unit
  startResult : Except PyErr Unit
  actResult : String → Except PyErr Unit
  stopResult : Except PyErr Unit

/-- The mutable state of `AutomationServer` (`web_ui.py`, lines 19-27).
`browser` holds the engine handle (`None` ↔ `none`); `nextEngineId` is a
ghost counter allocating fresh handles so that distinct constructions are
distinguishable.  The `verbose` flag and the lock object itself are omitted
here: `verbose` only guards prints, and the lock is modelled separately by
the interleaving semantics below. -/
structure ServerState where
  browser : Option Nat
  is_ready : Bool
  is_configured : Bool
  api_key : Option String
  starting_page : Option String
  headless : Bool
  nextEngineId : Nat
deriving DecidableEq, Repr

/-- The state `AutomationServer.__init__` produces. -/
def automationServerInit : ServerState :=
  { browser := none, is_ready := false, is_configured := false,
    api_key := none, starting_page := none, headless := false,
    nextEngineId := 0 }

/-- `AutomationServer.configure` (lines 29-47): if already configured, skip;
otherwise store the configuration and mark configured. -/
def configure (st : ServerState) (api_key starting_page : String)
    (headless : Bool) : ServerState :=
  if st.is_configured then st
  else { st with api_key := some api_key, starting_page := some starting_page,
                 headless := headless, is_configured := true }

/-- Message of the `RuntimeError` raised when executing unconfigured
(line 58). -/
def notConfiguredMsg : String := "Automation not configured. Call configure() first."

/-- The `NotConfigured` failure: a Python `RuntimeError`. -/
def notConfiguredErr : PyErr := ⟨true, notConfiguredMsg⟩

/-- `AutomationServer._initialize_if_needed` (lines 49-113).  Returns the
post-state, the engine invocations performed, and the raised exception, if
any.  Paths:
* already ready with a live handle → no-op;
* not configured → raise `RuntimeError` (no engine call);
* construct the engine (`BrowserUI(...)`); if the constructor raises,
  `self.browser` is unassigned, the cleanup block stops and clears it only
  when it was already non-`None`, and the exception is re-raised;
* start the engine; if `start` raises, the cleanup block calls
  `self.browser.stop()` (its own exception is swallowed), clears the handle
  and the ready flag, and re-raises;
* otherwise set `is_ready`. -/
def init_if_needed (ora : EngineOracle) (st : ServerState) :
    ServerState × List EngineEvent × Option PyErr :=
  if st.is_ready = true ∧ st.browser ≠ none then (st, [], none)
  else if st.is_configured = false then (st, [], some notConfiguredErr)
  else
    match ora.constructResult with
    | .error e =>
        match st.browser with
        | some oldId =>
            ({ st with browser := none, is_ready := false },
             [EngineEvent.constructCall, EngineEvent.stopCall oldId], some e)
        | none => (st, [EngineEvent.constructCall], some e)
    | .ok _ =>
        let id := st.nextEngineId
        let st1 := { st with browser := some id, nextEngineId := st.nextEngineId + 1 }
        match ora.startResult with
        | .error e =>
            ({ st1 with browser := none, is_ready := false },
             [EngineEvent.constructCall, EngineEvent.startCall id,
              EngineEvent.stopCall id], some e)
        | .ok _ =>
            ({ st1 with is_ready := true },
             [EngineEvent.constructCall, EngineEvent.startCall id], none)

/-- The `AttributeError` Python raises when `.agent` is read off `None`
(would only occur in an invariant-violating state). -/
def noneHasNoAgentErr : PyErr :=
  ⟨false, "AttributeError: \x27NoneType\x27 object has no attribute \x27agent\x27"⟩

/-- Body of `AutomationServer.execute_prompt` (lines 115-144), i.e. the code
executed inside `with self.lock:`.  If the session is not ready it lazily
initializes (propagating any failure); then it invokes
`self.browser.agent.act(prompt)`, re-raising the engine error on failure. -/
def execute_prompt (ora : EngineOracle) (st : ServerState) (prompt : String) :
    ServerState × List EngineEvent × Option PyErr :=
  let step1 : ServerState × List EngineEvent × Option PyErr :=
    if st.is_ready = true then (st, [], none) else init_if_needed ora st
  match step1 with
  | (st1, tr1, some e) => (st1, tr1, some e)
  | (st1, tr1, none) =>
      match st1.browser with
      | none => (st1, tr1, some noneHasNoAgentErr)
      | some id =>
          match ora.actResult prompt with
          | .ok _ => (st1, tr1 ++ [EngineEvent.actCall id prompt], none)
          | .error e => (st1, tr1 ++ [EngineEvent.actCall id prompt], some e)

/-- Body of `AutomationServer.close_browser` (lines 146-170): if a handle is
live, call `self.browser.stop()` (exceptions caught and swallowed), and in
the `finally` block clear the handle and the ready flag; return whether a
browser was open.  The post-state does not depend on whether `stop`
raised. -/
def close_browser (ora : EngineOracle) (st : ServerState) :
    ServerState × List EngineEvent × Bool :=
  match st.browser with
  | some id =>
      match ora.stopResult with
      | .ok _ =>
          ({ st with browser := none, is_ready := false },
           [EngineEvent.stopCall id], true)
      | .error _ =>
          ({ st with browser := none, is_ready := false },
           [EngineEvent.stopCall id], true)
  | none => (st, [], false)

/-- Attribute names of the lock object `threading.RLock()` returns
(`_thread.RLock`), as provided by the CPython runtimes current when this
repository was written (every release up to and including 3.13; dunder
attributes omitted).  A `locked` method exists on `threading.Lock` but was
only added to `RLock` in Python 3.14. -/
def rlockAttrNames : List String :=
  ["acquire", "release", "_is_owned", "_recursion_count",
   "_acquire_restore", "_release_save", "_at_fork_reinit"]

/-- The exception raised by the attribute lookup `self.lock.locked`. -/
def rlockNoLockedAttrErr : PyErr :=
  ⟨false, "AttributeError: \x27_thread.RLock\x27 object has no attribute \x27locked\x27"⟩

/-- `AutomationServer.is_busy` (lines 176-178): `return self.lock.locked()`.
`lockHeld` is whether any thread currently holds `self.lock`; the attribute
lookup on the `RLock` object is resolved against `rlockAttrNames`. -/
def is_busy (lockHeld : Bool) : Except PyErr Bool :=
  if rlockAttrNames.contains "locked" then Except.ok lockHeld
  else Except.error rlockNoLockedAttrErr

/-! ### The synchronous request adapter (`/api/execute_automation`) -/

/-- The externally visible part of a JSON response of the Flask endpoint:
HTTP status code, the `status` field and the `message` field.  (The
`timestamp` field is the current wall clock and carries no information about
the failure kind; the success response additionally echoes the prompt.) -/
structure ApiResponse where
  httpStatus : Nat
  status : String
  message : String
deriving DecidableEq, Repr

/-- The success confirmation message built at lines 605-608. -/
def successMsg (prompt : String) : String :=
  "Done! I\x27ve completed the automation task: " ++ prompt ++
  ". The browser action has finished successfully."

/-- The `execute_automation` endpoint (lines 561-650).  The request is
`none` when no JSON body was parsed, otherwise `some prompt` (with
`prompt = ""` when the field is missing or empty).  Failure mapping:
a raised `RuntimeError` → HTTP 503 "Browser not ready"; any other
exception → HTTP 500 "Error executing automation". -/
def execute_automation (ora : EngineOracle) (st : ServerState)
    (data : Option String) : ServerState × ApiResponse :=
  match data with
  | none => (st, ⟨400, "error", "Invalid or missing JSON data"⟩)
  | some prompt =>
      if prompt = "" then (st, ⟨400, "error", "No prompt provided"⟩)
      else
        match execute_prompt ora st prompt with
        | (st1, _, none) => (st1, ⟨200, "success", successMsg prompt⟩)
        | (st1, _, some e) =>
            if e.isRuntimeError then
              (st1, ⟨503, "error", "Browser not ready: " ++ e.msg⟩)
            else
              (st1, ⟨500, "error", "Error executing automation: " ++ e.msg⟩)

/-! ### Interleaving semantics of concurrent `execute_prompt`/`close_browser`

Each thread runs one public operation.  Both `execute_prompt` and
`close_browser` open with `with self.lock:` and keep the lock for their whole
body; every engine invocation they perform happens strictly inside that body.
A thread is abstracted by the number of engine invocations its body will
perform (for `execute_prompt` that is the length of its event trace — up to
four; for `close_browser` zero or one); an engine invocation is non-atomic
(it begins, is "in flight", then ends), so that overlap is expressible.
The lock is `threading.RLock`: acquisition succeeds when the lock is free or
already held by the acquiring thread. -/

/-- Control point of one thread running an `execute_prompt`/`close_browser`
body: before `with self.lock:`; inside the body between engine invocations
(`n` invocations still to perform); inside an in-flight engine invocation
(`n` more to perform after it); or finished (lock released). -/
inductive PC where
  | atEntry (plan : Nat)
  | inCrit (pending : Nat)
  | inEngine (pending : Nat)
  | finished
deriving DecidableEq, Repr

/-- Whether a control point is inside the lock-protected body. -/
def PC.inBody : PC → Bool
  | .inCrit _ => true
  | .inEngine _ => true
  | _ => false

/-- Whether a control point is inside an in-flight engine invocation. -/
def PC.engineInFlight : PC → Bool
  | .inEngine _ => true
  | _ => false

/-- A global configuration: who holds `self.lock` (if anyone) and the
control point of every thread (threads are named by naturals; unused
thread names are `finished`). -/
structure GState where
  lock : Option Nat
  pcs : Nat → PC

/-- Update of one thread's control point. -/
def setPC (pcs : Nat → PC) (i : Nat) (v : PC) : Nat → PC :=
  fun j => if j = i then v else pcs j

/-- Initial configuration for a list of thread plans: the lock is free and
thread `i` is about to run a body performing `plans[i]` engine
invocations. -/
def initGState (plans : List Nat) : GState :=
  { lock := none,
    pcs := fun i => match plans.get? i with
      | some p => PC.atEntry p
      | none => PC.finished }

/-- One interleaving step.  `acquire` models `with self.lock:` entry (enabled
when the `RLock` is free or already owned by the thread); `engineBegin` and
`engineEnd` delimit one engine invocation inside the body; `release` models
leaving the `with` block, which frees the lock.  Engine invocations are only
possible from inside the body, exactly as in the source, where every engine
call sits syntactically inside the `with self.lock:` block. -/
inductive LockStep : GState → GState → Prop where
  | acquire (s : GState) (i plan : Nat)
      (hpc : s.pcs i = PC.atEntry plan)
      (hl : s.lock = none ∨ s.lock = some i) :
      LockStep s ⟨some i, setPC s.pcs i (PC.inCrit plan)⟩
  | engineBegin (s : GState) (i k : Nat)
      (hpc : s.pcs i = PC.inCrit (k + 1)) :
      LockStep s ⟨s.lock, setPC s.pcs i (PC.inEngine k)⟩
  | engineEnd (s : GState) (i k : Nat)
      (hpc : s.pcs i = PC.inEngine k) :
      LockStep s ⟨s.lock, setPC s.pcs i (PC.inCrit k)⟩
  | release (s : GState) (i : Nat)
      (hpc : s.pcs i = PC.inCrit 0) :
      LockStep s ⟨none, setPC s.pcs i PC.finished⟩

/-- Configurations reachable from `init` by interleaving steps. -/
inductive LockReachable (init : GState) : GState → Prop where
  | refl : LockReachable init init
  | step {s t : GState} : LockReachable init s → LockStep s t →
      LockReachable init t

/-- Lock-ownership invariant: any thread inside the body holds the lock. -/
def lockInv (s : GState) : Prop :=
  ∀ i, (s.pcs i).inBody = true → s.lock = some i

/-! ### The wake-phrase detector loop (`wake_word_lite.py`) -/

/-- Outcome of one `self.recognizer.listen` + recognition attempt inside the
microphone scope: `waitTimeout` is `sr.WaitTimeoutError` (no speech),
`listenError` is any other exception while listening (breaks the inner
loop), `heard text` is a successful `recognize_google` result (the raw
text before `.lower()`), `unknownValue` is `sr.UnknownValueError`, and
`requestError` is `sr.RequestError` (waits 5 s and keeps listening). -/
inductive ListenOutcome where
  | waitTimeout
  | listenError
  | heard (text : String)
  | unknownValue
  | requestError
deriving DecidableEq, Repr

/-- Environment of the detector thread.  `stopCheck t` is the value the
`t`-th consultation of `self.stop_event.is_set()` returns, `micOpenOk t`
whether the `t`-th `sr.Microphone(...)` context entry succeeds (a failure
raises, ending the loop), `listenAt t` the `t`-th listen attempt, and
`hasCallback` whether `self.callback` is set.  `t` is a single logical
clock threaded through all consultations. -/
structure DetectorOracle where
  stopCheck : Nat → Bool
  micOpenOk : Nat → Bool
  listenAt : Nat → ListenOutcome
  hasCallback : Bool

/-- Observable events of the detector thread: microphone scope entry and
exit, one listen/recognition attempt, and an invocation of the registered
trigger callback. -/
inductive DEvent where
  | micOpen
  | micClose
  | listen (o : ListenOutcome)
  | callbackCall
deriving DecidableEq, Repr

/-- Python `needle in hay` on strings: substring containment. -/
def pyContains (needle hay : String) : Bool :=
  hay.toList.tails.any fun suffix => needle.toList.isPrefixOf suffix

/-- Python `s.lower()` (characterwise lowering, as in the ASCII range). -/
def pyLower (s : String) : String := ⟨s.data.map Char.toLower⟩

/-- How the inner `while not self.stop_event.is_set():` loop (lines 99-133)
terminated: the stop event was observed set; the wake phrase was detected
(`break` at line 115); a non-timeout listen exception broke the loop
(line 133); or the modelling fuel ran out. -/
inductive InnerExit where
  | stopped
  | wake (text : String)
  | errored
  | fuelOut
deriving DecidableEq, Repr

/-- The inner listening loop (lines 99-133), run inside the microphone
scope.  Returns the events it emitted, the advanced clock, and how it
exited.  On `heard text` it lowercases the text and breaks out iff the
stored wake phrase is contained in it; on `unknownValue`, `waitTimeout`
and `requestError` it keeps listening; any other listen exception breaks
out.  `fuel` bounds the number of iterations (the Python loop may run
forever). -/
def inner_listen (ora : DetectorOracle) (wake_phrase : String) :
    Nat → Nat → List DEvent × Nat × InnerExit
  | 0, t => ([], t, InnerExit.fuelOut)
  | fuel + 1, t =>
    if ora.stopCheck t then ([], t + 1, InnerExit.stopped)
    else
      match ora.listenAt (t + 1) with
      | .waitTimeout =>
          let r := inner_listen ora wake_phrase fuel (t + 2)
          (DEvent.listen .waitTimeout :: r.1, r.2)
      | .listenError => ([DEvent.listen .listenError], t + 2, InnerExit.errored)
      | .heard text =>
          let low := pyLower text
          if pyContains wake_phrase low then
            ([DEvent.listen (.heard text)], t + 2, InnerExit.wake low)
          else
            let r := inner_listen ora wake_phrase fuel (t + 2)
            (DEvent.listen (.heard text) :: r.1, r.2)
      | .unknownValue =>
          let r := inner_listen ora wake_phrase fuel (t + 2)
          (DEvent.listen .unknownValue :: r.1, r.2)
      | .requestError =>
          let r := inner_listen ora wake_phrase fuel (t + 2)
          (DEvent.listen .requestError :: r.1, r.2)

/-- `LightweightWakeWordListener._listen_loop` (lines 58-155) as the event
trace the detector thread emits.  Each outer iteration: check the stop
event; enter the microphone scope (a failure to open ends the loop via the
outer `except`); run the inner loop; leave the scope; re-check the stop
event; and only then — with the microphone released — invoke the trigger
callback when the wake phrase was detected and a callback is registered
(callback exceptions are caught, so the loop continues either way). -/
def listen_loop (ora : DetectorOracle) (wake_phrase : String) :
    Nat → Nat → List DEvent
  | 0, _ => []
  | fuel + 1, t =>
    if ora.stopCheck t then []
    else if ora.micOpenOk (t + 1) = false then []
    else
      let r := inner_listen ora wake_phrase fuel (t + 2)
      let block := DEvent.micOpen :: (r.1 ++ [DEvent.micClose])
      if ora.stopCheck r.2.1 then block
      else
        let wake := match r.2.2 with | InnerExit.wake _ => true | _ => false
        if wake && ora.hasCallback then
          block ++ DEvent.callbackCall :: listen_loop ora wake_phrase fuel (r.2.1 + 2)
        else
          block ++ listen_loop ora wake_phrase fuel (r.2.1 + 1)

/-- Number of occurrences of an event in a trace. -/
def countEv (e : DEvent) : List DEvent → Nat
  | [] => 0
  | x :: xs => (if x = e then 1 else 0) + countEv e xs

/-- A trace never fires the callback while the microphone scope is open:
at every point where a `callbackCall` occurs, the opens and closes seen so
far balance out. -/
def cbOutsideMic (l : List DEvent) : Prop :=
  ∀ p q, l = p ++ DEvent.callbackCall :: q →
    countEv DEvent.micOpen p = countEv DEvent.micClose p

/-- The handle/state-flag invariant of claim C5: the engine handle is
non-null exactly when the ready flag is set. -/
def handleInv (st : ServerState) : Prop := st.browser.isSome = st.is_ready

/-- An engine environment where every call succeeds. -/
def oraAllOk : EngineOracle :=
  { constructResult := Except.ok (), startResult := Except.ok (),
    actResult := fun _ => Except.ok (), stopResult := Except.ok () }

end AutoBrowser

namespace AutoBrowser

/-! ## Claims -/

/-- **C2.** For every instruction, if `execute_prompt` is called before
`configure` has ever been called (the session is Unconfigured: not
configured and not ready), the call raises the NotConfigured
`RuntimeError`, performs no engine invocation whatsoever (for any engine
environment), and leaves the session state unchanged. -/
theorem execute_before_configure_fails (ora : EngineOracle) (st : ServerState)
    (prompt : String) (hconf : st.is_configured = false)
    (hready : st.is_ready = false) :
    execute_prompt ora st prompt = (st, [], some notConfiguredErr) := by
  simp [execute_prompt, init_if_needed, hconf, hready]

/-- Witness for C2: the freshly constructed server. -/
theorem execute_before_configure_fails_witness :
    execute_prompt oraAllOk automationServerInit "go to example.com" =
      (automationServerInit, [], some notConfiguredErr) :=
  execute_before_configure_fails oraAllOk automationServerInit
    "go to example.com" rfl rfl

/-- **C6.** `configure` is idempotent: on an unconfigured session the first
call stores the given configuration and marks the session configured;
every subsequent call, even with a different configuration, returns the
state unchanged (no error), so the first configuration is retained. -/
theorem configure_idempotent (st : ServerState) (k p : String) (hd : Bool)
    (k2 p2 : String) (hd2 : Bool) (hc : st.is_configured = false) :
    (configure st k p hd).is_configured = true ∧
    (configure st k p hd).api_key = some k ∧
    (configure st k p hd).starting_page = some p ∧
    (configure st k p hd).headless = hd ∧
    configure (configure st k p hd) k2 p2 hd2 = configure st k p hd := by
  simp [configure, hc]

/-- Witness for C6: a second `configure` with a different key, page and
headless flag changes nothing. -/
theorem configure_idempotent_witness :
    (configure automationServerInit "key1" "https://google.com" false).is_configured = true ∧
    (configure automationServerInit "key1" "https://google.com" false).api_key = some "key1" ∧
    (configure automationServerInit "key1" "https://google.com" false).starting_page =
      some "https://google.com" ∧
    (configure automationServerInit "key1" "https://google.com" false).headless = false ∧
    configure (configure automationServerInit "key1" "https://google.com" false)
        "key2" "https://bing.com" true =
      configure automationServerInit "key1" "https://google.com" false :=
  configure_idempotent automationServerInit "key1" "https://google.com" false
    "key2" "https://bing.com" true rfl

/-- **C9.** `is_busy` does not return a boolean at all: it evaluates
`self.lock.locked()`, and the `RLock` object has no `locked` attribute on
the CPython versions this repository runs on (`locked` was only added to
`RLock` in Python 3.14), so the call raises `AttributeError` in every
session state instead of reporting whether the lock is held. -/
theorem is_busy_raises_attribute_error (lockHeld : Bool) :
    is_busy lockHeld = Except.error rlockNoLockedAttrErr := by
  cases lockHeld <;> rfl

/-- **C10.** If the session is Ready (ready flag set, live handle) and the
engine `act` call raises, `execute_prompt` re-raises the error and leaves
the state — including the handle and the ready flag — unchanged; a
subsequent `execute_prompt` whose engine call succeeds reuses the same
handle without performing any construction. -/
theorem act_failure_preserves_ready_state (ora : EngineOracle)
    (st : ServerState) (id : Nat) (prompt prompt2 : String) (e : PyErr)
    (hr : st.is_ready = true) (hb : st.browser = some id)
    (ha : ora.actResult prompt = Except.error e) :
    execute_prompt ora st prompt = (st, [EngineEvent.actCall id prompt], some e) ∧
    ∀ ora2 : EngineOracle, ora2.actResult prompt2 = Except.ok () →
      execute_prompt ora2 st prompt2 = (st, [EngineEvent.actCall id prompt2], none) := by
  constructor
  · simp [execute_prompt, hr, hb, ha]
  · intro ora2 ha2
    simp [execute_prompt, hr, hb, ha2]

/-- An engine environment whose `act` call always fails. -/
def oraActBoom : EngineOracle :=
  { constructResult := Except.ok (), startResult := Except.ok (),
    actResult := fun _ => Except.error ⟨false, "boom"⟩,
    stopResult := Except.ok () }

/-- A Ready session: configured, handle `0` live, ready flag set. -/
def readyState : ServerState :=
  { browser := some 0, is_ready := true, is_configured := true,
    api_key := some "key1", starting_page := some "https://google.com",
    headless := false, nextEngineId := 1 }

/-- Witness for C10: a failing `act` on the Ready session re-raises and
leaves the state untouched. -/
theorem act_failure_preserves_ready_state_witness :
    execute_prompt oraActBoom readyState "search cats" =
      (readyState, [EngineEvent.actCall 0 "search cats"], some ⟨false, "boom"⟩) :=
  (act_failure_preserves_ready_state oraActBoom readyState 0 "search cats"
    "open tab" ⟨false, "boom"⟩ rfl rfl rfl).1

/-- **C5.** After every public operation of the session manager —
`configure`, `execute_prompt` (normal return or raise) and `close_browser` —
the engine handle is non-null exactly when the ready flag is set. -/
theorem handle_iff_ready_invariant (ora : EngineOracle) (st : ServerState)
    (k p : String) (hd : Bool) (prompt : String) (h : handleInv st) :
    handleInv (configure st k p hd) ∧
    handleInv (execute_prompt ora st prompt).1 ∧
    handleInv (close_browser ora st).1 := by
  unfold handleInv at *
  refine ⟨?_, ?_, ?_⟩
  · cases hc : st.is_configured <;> simp [configure, hc, h]
  · cases hb : st.browser with
    | some id =>
      have hr : st.is_ready = true := by rw [hb] at h; simpa using h.symm
      cases ha : ora.actResult prompt <;> simp [execute_prompt, hr, hb, ha]
    | none =>
      have hr : st.is_ready = false := by rw [hb] at h; simpa using h.symm
      cases hc : st.is_configured with
      | false => simp [execute_prompt, init_if_needed, hr, hb, hc]
      | true =>
        cases hcr : ora.constructResult with
        | error e => simp [execute_prompt, init_if_needed, hr, hb, hc, hcr]
        | ok u =>
          cases hsr : ora.startResult with
          | error e => simp [execute_prompt, init_if_needed, hr, hb, hc, hcr, hsr]
          | ok u2 =>
            cases ha : ora.actResult prompt <;>
              simp [execute_prompt, init_if_needed, hr, hb, hc, hcr, hsr, ha]
  · cases hb : st.browser with
    | some id => cases hst : ora.stopResult <;> simp [close_browser, hb, hst]
    | none => simpa [close_browser, hb] using h

/-- Witness for C5 at the Ready session with an all-succeeding engine. -/
theorem handle_iff_ready_invariant_witness :
    handleInv (configure readyState "key2" "https://bing.com" true) ∧
    handleInv (execute_prompt oraAllOk readyState "search cats").1 ∧
    handleInv (close_browser oraAllOk readyState).1 :=
  handle_iff_ready_invariant oraAllOk readyState "key2" "https://bing.com"
    true "search cats" rfl

/-- **C3.** If lazy initialization during `execute_prompt` fails — whether
the constructor raises or `start` raises — the failure is re-raised to the
caller, the session returns to Configured (configuration intact, no handle,
not ready; only the ghost handle counter may advance), any partially
constructed engine is released (`stopCall` follows the failed `startCall`),
and a subsequent `execute_prompt` under a healthy engine performs a fresh
construction and succeeds rather than reusing a broken handle. -/
theorem init_failure_returns_to_configured (ora ora2 : EngineOracle)
    (st : ServerState) (prompt : String) (e : PyErr)
    (hc : st.is_configured = true) (hr : st.is_ready = false)
    (hb : st.browser = none)
    (h2c : ora2.constructResult = Except.ok ())
    (h2s : ora2.startResult = Except.ok ())
    (h2a : ora2.actResult prompt = Except.ok ()) :
    (ora.constructResult = Except.error e →
      execute_prompt ora st prompt = (st, [EngineEvent.constructCall], some e) ∧
      execute_prompt ora2 st prompt =
        ({ st with browser := some st.nextEngineId, is_ready := true,
                   nextEngineId := st.nextEngineId + 1 },
         [EngineEvent.constructCall, EngineEvent.startCall st.nextEngineId,
          EngineEvent.actCall st.nextEngineId prompt], none)) ∧
    (ora.constructResult = Except.ok () → ora.startResult = Except.error e →
      execute_prompt ora st prompt =
        ({ st with nextEngineId := st.nextEngineId + 1 },
         [EngineEvent.constructCall, EngineEvent.startCall st.nextEngineId,
          EngineEvent.stopCall st.nextEngineId], some e) ∧
      execute_prompt ora2 { st with nextEngineId := st.nextEngineId + 1 } prompt =
        ({ st with browser := some (st.nextEngineId + 1), is_ready := true,
                   nextEngineId := st.nextEngineId + 2 },
         [EngineEvent.constructCall, EngineEvent.startCall (st.nextEngineId + 1),
          EngineEvent.actCall (st.nextEngineId + 1) prompt], none)) := by
  constructor
  · intro hcr
    constructor
    · simp [execute_prompt, init_if_needed, hc, hr, hb, hcr]
    · simp [execute_prompt, init_if_needed, hc, hr, hb, h2c, h2s, h2a]
  · intro hcr hsr
    constructor
    · simp [execute_prompt, init_if_needed, hc, hr, hb, hcr, hsr]
    · simp [execute_prompt, init_if_needed, hc, hr, hb, h2c, h2s, h2a]

/-- An engine environment whose `start` call fails. -/
def oraStartBoom : EngineOracle :=
  { constructResult := Except.ok (), startResult := Except.error ⟨false, "boom"⟩,
    actResult := fun _ => Except.ok (), stopResult := Except.ok () }

/-- The Configured (never initialized) session. -/
def configuredState : ServerState :=
  configure automationServerInit "key1" "https://google.com" false

/-- Witness for C3: `start` fails on the Configured session; the partially
constructed engine `0` is stopped, the error is reported, and the retry
constructs engine `1` and succeeds. -/
theorem init_failure_returns_to_configured_witness :
    execute_prompt oraStartBoom configuredState "go to example.com" =
      ({ configuredState with nextEngineId := 1 },
       [EngineEvent.constructCall, EngineEvent.startCall 0,
        EngineEvent.stopCall 0], some ⟨false, "boom"⟩) ∧
    execute_prompt oraAllOk { configuredState with nextEngineId := 1 }
        "go to example.com" =
      ({ configuredState with browser := some 1, is_ready := true,
                              nextEngineId := 2 },
       [EngineEvent.constructCall, EngineEvent.startCall 1,
        EngineEvent.actCall 1 "go to example.com"], none) :=
  (init_failure_returns_to_configured oraStartBoom oraAllOk configuredState
    "go to example.com" ⟨false, "boom"⟩ rfl rfl rfl rfl rfl rfl).2 rfl rfl

/-- **C7.** `close_browser` on a session with a live engine stops and
releases the handle and returns the session to Configured — the stored
configuration (key, page, headless flag) is retained, there is no terminal
Closed state — and a subsequent `execute_prompt` lazily constructs a fresh
engine, starts it and executes the instruction. -/
theorem close_allows_reinitialization (ora ora2 : EngineOracle)
    (st : ServerState) (id : Nat) (prompt : String)
    (hb : st.browser = some id) (hc : st.is_configured = true)
    (h2c : ora2.constructResult = Except.ok ())
    (h2s : ora2.startResult = Except.ok ())
    (h2a : ora2.actResult prompt = Except.ok ()) :
    close_browser ora st =
      ({ st with browser := none, is_ready := false },
       [EngineEvent.stopCall id], true) ∧
    (close_browser ora st).1.is_configured = true ∧
    (close_browser ora st).1.api_key = st.api_key ∧
    (close_browser ora st).1.starting_page = st.starting_page ∧
    (close_browser ora st).1.headless = st.headless ∧
    execute_prompt ora2 (close_browser ora st).1 prompt =
      ({ st with browser := some st.nextEngineId, is_ready := true,
                 nextEngineId := st.nextEngineId + 1 },
       [EngineEvent.constructCall, EngineEvent.startCall st.nextEngineId,
        EngineEvent.actCall st.nextEngineId prompt], none) := by
  cases hst : ora.stopResult <;>
    simp [close_browser, execute_prompt, init_if_needed, hb, hc, hst,
          h2c, h2s, h2a]

/-- Witness for C7: close the Ready session (engine `0` stopped), then
execute again — engine `1` is freshly constructed and the prompt runs. -/
theorem close_allows_reinitialization_witness :
    close_browser oraAllOk readyState =
      ({ readyState with browser := none, is_ready := false },
       [EngineEvent.stopCall 0], true) ∧
    (close_browser oraAllOk readyState).1.is_configured = true ∧
    (close_browser oraAllOk readyState).1.api_key = readyState.api_key ∧
    (close_browser oraAllOk readyState).1.starting_page = readyState.starting_page ∧
    (close_browser oraAllOk readyState).1.headless = readyState.headless ∧
    execute_prompt oraAllOk (close_browser oraAllOk readyState).1 "open tab" =
      ({ readyState with browser := some 1, is_ready := true, nextEngineId := 2 },
       [EngineEvent.constructCall, EngineEvent.startCall 1,
        EngineEvent.actCall 1 "open tab"], none) :=
  close_allows_reinitialization oraAllOk oraAllOk readyState 0 "open tab"
    rfl rfl rfl rfl rfl

/-- **C4 (amended).** The adapter maps a successful `execute_prompt` to the
200 confirmation payload; it maps a raised `RuntimeError` (in particular the
NotConfigured failure) to the 503 "Browser not ready" response; and it maps
every other exception — initialization failures and engine execution
failures alike — to one and the same 500 "Error executing automation"
response shape, so those two failure kinds are not distinguishable (see the
counterexample below). -/
theorem adapter_maps_failures (ora : EngineOracle) (st : ServerState)
    (prompt : String) (hp : prompt ≠ "") :
    ((execute_prompt ora st prompt).2.2 = none →
      execute_automation ora st (some prompt) =
        ((execute_prompt ora st prompt).1, ⟨200, "success", successMsg prompt⟩)) ∧
    (∀ e : PyErr, (execute_prompt ora st prompt).2.2 = some e →
      e.isRuntimeError = true →
      execute_automation ora st (some prompt) =
        ((execute_prompt ora st prompt).1,
         ⟨503, "error", "Browser not ready: " ++ e.msg⟩)) ∧
    (∀ e : PyErr, (execute_prompt ora st prompt).2.2 = some e →
      e.isRuntimeError = false →
      execute_automation ora st (some prompt) =
        ((execute_prompt ora st prompt).1,
         ⟨500, "error", "Error executing automation: " ++ e.msg⟩)) := by
  rcases hx : execute_prompt ora st prompt with ⟨st1, tr, err⟩
  refine ⟨?_, ?_, ?_⟩
  · intro hnone
    simp only [hx] at hnone
    subst hnone
    simp [execute_automation, hx, hp]
  · intro e he hrt
    simp only [hx] at he
    subst he
    simp [execute_automation, hx, hp, hrt]
  · intro e he hrt
    simp only [hx] at he
    subst he
    simp [execute_automation, hx, hp, hrt]

/-- Witness for C4 (amended): on the unconfigured server every request is
answered with the 503 not-ready response. -/
theorem adapter_maps_failures_witness :
    execute_automation oraAllOk automationServerInit (some "go") =
      (automationServerInit,
       ⟨503, "error", "Browser not ready: " ++ notConfiguredMsg⟩) :=
  (adapter_maps_failures oraAllOk automationServerInit "go"
    (by decide)).2.1 notConfiguredErr rfl rfl

/-- An engine environment whose construction fails with a generic (non
`RuntimeError`) exception. -/
def oraConstructBoom : EngineOracle :=
  { constructResult := Except.error ⟨false, "boom"⟩, startResult := Except.ok (),
    actResult := fun _ => Except.ok (), stopResult := Except.ok () }

/-- A control point inside an engine invocation is inside the body. -/
lemma PC.engineInFlight_inBody {pc : PC} (h : pc.engineInFlight = true) :
    pc.inBody = true := by
  cases pc <;> simp_all [PC.engineInFlight, PC.inBody]

/-- Initially no thread is inside the body, so the lock invariant holds. -/
lemma lockInv_init (plans : List Nat) : lockInv (initGState plans) := by
  intro i hi
  cases h : plans[i]? <;> simp [initGState, h, PC.inBody] at hi

/-- The lock invariant is preserved by every interleaving step. -/
lemma lockInv_step {s t : GState} (hs : lockInv s) (hst : LockStep s t) :
    lockInv t := by
  cases hst with
  | acquire i plan hpc hl =>
    intro j hj
    by_cases hij : j = i
    · subst hij; rfl
    · have hj' : (s.pcs j).inBody = true := by simpa [setPC, hij] using hj
      have hlj := hs j hj'
      rcases hl with h0 | h0 <;> rw [h0] at hlj <;> simp_all
  | engineBegin i k hpc =>
    intro j hj
    by_cases hij : j = i
    · subst hij
      exact hs j (by simp [PC.inBody, hpc])
    · exact hs j (by simpa [setPC, hij] using hj)
  | engineEnd i k hpc =>
    intro j hj
    by_cases hij : j = i
    · subst hij
      exact hs j (by simp [PC.inBody, hpc])
    · exact hs j (by simpa [setPC, hij] using hj)
  | release i hpc =>
    intro j hj
    by_cases hij : j = i
    · subst hij; simp [setPC, PC.inBody] at hj
    · have h1 := hs j (by simpa [setPC, hij] using hj)
      have h2 := hs i (by simp [PC.inBody, hpc])
      rw [h1] at h2
      exact absurd (Option.some.inj h2) hij

/-- **C1.** For every collection of threads concurrently running
`execute_prompt`/`close_browser` bodies and every interleaving of their
steps: any thread inside the lock-protected body holds the manager's
exclusive lock (so every engine invocation — construction, `act`, release —
happens with the lock held across the whole body), and consequently at most
one engine invocation is in flight at any instant. -/
theorem lock_mutual_exclusion (plans : List Nat) (s : GState)
    (h : LockReachable (initGState plans) s) :
    lockInv s ∧
    ∀ i j, (s.pcs i).engineInFlight = true →
      (s.pcs j).engineInFlight = true → i = j := by
  have hinv : lockInv s := by
    induction h with
    | refl => exact lockInv_init plans
    | step hr hstep ih => exact lockInv_step ih hstep
  refine ⟨hinv, ?_⟩
  intro i j hi hj
  have h1 := hinv i (PC.engineInFlight_inBody hi)
  have h2 := hinv j (PC.engineInFlight_inBody hj)
  rw [h1] at h2
  exact Option.some.inj h2

/-- Two threads, the first about to run a two-invocation `execute_prompt`
body, the second a one-invocation `close_browser` body. -/
def gWit0 : GState := initGState [2, 1]

/-- Thread 0 has entered `with self.lock:`. -/
def gWit1 : GState := { lock := some 0, pcs := setPC gWit0.pcs 0 (PC.inCrit 2) }

/-- Thread 0 is in the middle of an engine invocation. -/
def gWit2 : GState :=
  { lock := gWit1.lock, pcs := setPC gWit1.pcs 0 (PC.inEngine 1) }

/-- Witness for C1: in the reachable configuration where thread 0 is inside
an engine invocation, thread 0 holds the lock. -/
theorem lock_mutual_exclusion_witness : gWit2.lock = some 0 :=
  (lock_mutual_exclusion [2, 1] gWit2
    (LockReachable.step
      (LockReachable.step LockReachable.refl
        (LockStep.acquire gWit0 0 2 rfl (Or.inl rfl)))
      (LockStep.engineBegin gWit1 0 1 rfl))).1 0 rfl

/-- Counting events distributes over trace concatenation. -/
lemma countEv_append (e : DEvent) (a b : List DEvent) :
    countEv e (a ++ b) = countEv e a + countEv e b := by
  induction a with
  | nil => simp [countEv]
  | cons x xs ih => simp [countEv, ih, Nat.add_assoc]

/-- The inner listening loop emits only `listen` events: no microphone
scope events and no callback invocations. -/
lemma inner_listen_counts (ora : DetectorOracle) (wp : String) :
    ∀ fuel t,
      countEv DEvent.micOpen (inner_listen ora wp fuel t).1 = 0 ∧
      countEv DEvent.micClose (inner_listen ora wp fuel t).1 = 0 ∧
      countEv DEvent.callbackCall (inner_listen ora wp fuel t).1 = 0 := by
  intro fuel
  induction fuel with
  | zero => intro t; simp [inner_listen, countEv]
  | succ n ih =>
    intro t
    cases hs : ora.stopCheck t with
    | true => simp [inner_listen, hs, countEv]
    | false =>
      cases hl : ora.listenAt (t + 1) with
      | heard text =>
        cases hw : pyContains wp (pyLower text) with
        | true => simp [inner_listen, hs, hl, hw, countEv]
        | false => simpa [inner_listen, hs, hl, hw, countEv] using ih (t + 2)
      | waitTimeout => simpa [inner_listen, hs, hl, countEv] using ih (t + 2)
      | listenError => simp [inner_listen, hs, hl, countEv]
      | unknownValue => simpa [inner_listen, hs, hl, countEv] using ih (t + 2)
      | requestError => simpa [inner_listen, hs, hl, countEv] using ih (t + 2)

/-- A trace containing no callback invocation trivially satisfies
`cbOutsideMic`. -/
lemma cbFree_cbOutsideMic {l : List DEvent}
    (h : countEv DEvent.callbackCall l = 0) : cbOutsideMic l := by
  intro p q hl
  rw [hl, countEv_append] at h
  simp [countEv] at h

/-- `cbOutsideMic` is preserved by prepending a balanced `cbOutsideMic`
trace. -/
lemma cbOutsideMic_append {a b : List DEvent} (ha : cbOutsideMic a)
    (hbal : countEv DEvent.micOpen a = countEv DEvent.micClose a)
    (hb : cbOutsideMic b) : cbOutsideMic (a ++ b) := by
  intro p q hl
  rcases List.append_eq_append_iff.mp hl with ⟨w, hp, hw⟩ | ⟨w, hp, hw⟩
  · rw [hp, countEv_append, countEv_append, hbal, hb w q hw]
  · cases w with
    | nil =>
      rw [List.append_nil] at hp
      rw [← hp]
      exact hbal
    | cons x w2 =>
      injection hw with hx htl
      rw [← hx] at hp
      exact ha p w2 hp

/-- Appending one callback invocation to a callback-free balanced trace
yields a `cbOutsideMic` trace. -/
lemma cbAtEnd_cbOutsideMic {l : List DEvent}
    (hfree : countEv DEvent.callbackCall l = 0)
    (hbal : countEv DEvent.micOpen l = countEv DEvent.micClose l) :
    cbOutsideMic (l ++ [DEvent.callbackCall]) := by
  intro p q hl
  rcases List.append_eq_append_iff.mp hl with ⟨w, hp, hw⟩ | ⟨w, hp, hw⟩
  · cases w with
    | nil =>
      rw [List.append_nil] at hp
      rw [hp]
      exact hbal
    | cons x w2 =>
      injection hw with hx htl
      exact absurd htl.symm (by simp)
  · cases w with
    | nil =>
      rw [List.append_nil] at hp
      rw [← hp]
      exact hbal
    | cons x w2 =>
      injection hw with hx htl
      rw [← hx] at hp
      rw [hp, countEv_append] at hfree
      simp [countEv] at hfree

/-- Every trace the detector loop can emit fires its callback only with the
microphone scope closed. -/
lemma listen_loop_cbOutsideMic (ora : DetectorOracle) (wp : String) :
    ∀ fuel t, cbOutsideMic (listen_loop ora wp fuel t) := by
  intro fuel
  induction fuel with
  | zero =>
    intro t
    exact cbFree_cbOutsideMic (by simp [listen_loop, countEv])
  | succ n ih =>
    intro t
    cases hs : ora.stopCheck t with
    | true => exact cbFree_cbOutsideMic (by simp [listen_loop, hs, countEv])
    | false =>
      cases hm : ora.micOpenOk (t + 1) with
      | false =>
        exact cbFree_cbOutsideMic (by simp [listen_loop, hs, hm, countEv])
      | true =>
        rcases hr : inner_listen ora wp n (t + 2) with ⟨evs, t1, ex⟩
        have hcounts := inner_listen_counts ora wp n (t + 2)
        rw [hr] at hcounts
        obtain ⟨ho, hcl, hcb⟩ := hcounts
        have hblockFree :
            countEv DEvent.callbackCall
              (DEvent.micOpen :: (evs ++ [DEvent.micClose])) = 0 := by
          simp [countEv, countEv_append, hcb]
        have hblockBal :
            countEv DEvent.micOpen (DEvent.micOpen :: (evs ++ [DEvent.micClose])) =
            countEv DEvent.micClose (DEvent.micOpen :: (evs ++ [DEvent.micClose])) := by
          simp [countEv, countEv_append, ho, hcl]
        cases hs2 : ora.stopCheck t1 with
        | true =>
          have heq : listen_loop ora wp (n + 1) t =
              DEvent.micOpen :: (evs ++ [DEvent.micClose]) := by
            simp [listen_loop, hs, hm, hr, hs2]
          rw [heq]
          exact cbFree_cbOutsideMic hblockFree
        | false =>
          cases ex with
          | wake txt =>
            cases hhc : ora.hasCallback with
            | false =>
              have heq : listen_loop ora wp (n + 1) t =
                  (DEvent.micOpen :: (evs ++ [DEvent.micClose])) ++
                    listen_loop ora wp n (t1 + 1) := by
                simp [listen_loop, hs, hm, hr, hs2, hhc]
              rw [heq]
              exact cbOutsideMic_append (cbFree_cbOutsideMic hblockFree)
                hblockBal (ih _)
            | true =>
              have heq : listen_loop ora wp (n + 1) t =
                  (DEvent.micOpen :: (evs ++ [DEvent.micClose])) ++
                    DEvent.callbackCall :: listen_loop ora wp n (t1 + 2) := by
                simp [listen_loop, hs, hm, hr, hs2, hhc]
              have hshape :
                  (DEvent.micOpen :: (evs ++ [DEvent.micClose])) ++
                    DEvent.callbackCall :: listen_loop ora wp n (t1 + 2) =
                  ((DEvent.micOpen :: (evs ++ [DEvent.micClose])) ++
                    [DEvent.callbackCall]) ++ listen_loop ora wp n (t1 + 2) := by
                simp
              rw [heq, hshape]
              exact cbOutsideMic_append
                (cbAtEnd_cbOutsideMic hblockFree hblockBal)
                (by simpa [countEv_append, countEv] using hblockBal)
                (ih _)
          | stopped =>
            have heq : listen_loop ora wp (n + 1) t =
                (DEvent.micOpen :: (evs ++ [DEvent.micClose])) ++
                  listen_loop ora wp n (t1 + 1) := by
              simp [listen_loop, hs, hm, hr, hs2]
            rw [heq]
            exact cbOutsideMic_append (cbFree_cbOutsideMic hblockFree)
              hblockBal (ih _)
          | errored =>
            have heq : listen_loop ora wp (n + 1) t =
                (DEvent.micOpen :: (evs ++ [DEvent.micClose])) ++
                  listen_loop ora wp n (t1 + 1) := by
              simp [listen_loop, hs, hm, hr, hs2]
            rw [heq]
            exact cbOutsideMic_append (cbFree_cbOutsideMic hblockFree)
              hblockBal (ih _)
          | fuelOut =>
            have heq : listen_loop ora wp (n + 1) t =
                (DEvent.micOpen :: (evs ++ [DEvent.micClose])) ++
                  listen_loop ora wp n (t1 + 1) := by
              simp [listen_loop, hs, hm, hr, hs2]
            rw [heq]
            exact cbOutsideMic_append (cbFree_cbOutsideMic hblockFree)
              hblockBal (ih _)

/-- **C8.** The wake-phrase detector never invokes its registered trigger
callback while its own microphone scope is open: wherever a callback
invocation occurs in the emitted event trace, every microphone scope opened
before it has already been closed — for every environment (stop-event
timing, microphone availability, heard utterances), every wake phrase and
every number of loop iterations. -/
theorem detector_callback_outside_mic_scope (ora : DetectorOracle)
    (wake_phrase : String) (fuel t : Nat) (p q : List DEvent)
    (h : listen_loop ora wake_phrase fuel t = p ++ DEvent.callbackCall :: q) :
    countEv DEvent.micOpen p = countEv DEvent.micClose p :=
  listen_loop_cbOutsideMic ora wake_phrase fuel t p q h

/-- A detector environment: the stop event is never set, the microphone
always opens, and every utterance is "Hey browser please". -/
def oraWake : DetectorOracle :=
  { stopCheck := fun _ => false, micOpenOk := fun _ => true,
    listenAt := fun _ => ListenOutcome.heard "Hey browser please",
    hasCallback := true }

/-- Events before the callback in the `oraWake` run: one full microphone
scope, already closed. -/
def tracePrefixWake : List DEvent :=
  [DEvent.micOpen, DEvent.listen (ListenOutcome.heard "Hey browser please"),
   DEvent.micClose]

/-- Events after the callback in the `oraWake` run. -/
def traceSuffixWake : List DEvent := [DEvent.micOpen, DEvent.micClose]

/-- Witness for C8: in the concrete `oraWake` run the callback fires with
the microphone scope balance at zero. -/
theorem detector_callback_outside_mic_scope_witness :
    countEv DEvent.micOpen tracePrefixWake =
      countEv DEvent.micClose tracePrefixWake :=
  detector_callback_outside_mic_scope oraWake "hey browser" 2 0
    tracePrefixWake traceSuffixWake (by decide)

/-- Counterexample to C4 as stated: an initialization failure (the engine
constructor raises during lazy init on the Configured session — the trace
shows the failed construction attempt and no `act`) and an engine execution
failure (`act` raises on the Ready session with live handle `0`) yield
literally identical endpoint responses, so the two failure kinds are not
distinguishable by the caller. -/
theorem adapter_init_engine_failures_indistinct :
    (execute_prompt oraConstructBoom configuredState "go").2.1 =
      [EngineEvent.constructCall] ∧
    (execute_prompt oraConstructBoom configuredState "go").2.2 =
      some ⟨false, "boom"⟩ ∧
    (execute_prompt oraActBoom readyState "go").2.1 =
      [EngineEvent.actCall 0 "go"] ∧
    (execute_prompt oraActBoom readyState "go").2.2 = some ⟨false, "boom"⟩ ∧
    (execute_automation oraConstructBoom configuredState (some "go")).2 =
      (execute_automation oraActBoom readyState (some "go")).2 :=
  ⟨rfl, rfl, rfl, rfl, rfl⟩

end AutoBrowser
